import Mathlib

/-!
Verification of `src/webapp/app.py` (Sharp Gaussian Splat web application).

The file is a FastAPI façade over an external `sharp` library.  We embed the
handlers shallowly: the process-global mutable state (`predictor`, `device`,
`gaussian_storage`, `ply_storage`) becomes an explicit `ServerState` record
threaded through each handler, and every external effect (CUDA probing, image
decoding, model inference, the GPU rasterizer, the checkpoint download, the
filesystem) becomes a field of an environment record that the handler consumes.
HTTP outcomes are a `Response` value: either a payload or an HTTP error with a
status code and detail string, mirroring `HTTPException(status_code, detail)`.
-/

set_option maxRecDepth 4000
set_option linter.unusedVariables false

namespace SharpApp

/-- Opaque stand-in for a `torch` state dict downloaded from the checkpoint
URL (`torch.hub.load_state_dict_from_url`, app.py line 82). -/
structure StateDict where
  sd : Nat
deriving DecidableEq, Repr

/-- Opaque stand-in for the predictor network built by
`create_predictor(PredictorParams())` and loaded with a state dict
(app.py lines 88-92). -/
structure Predictor where
  weights : StateDict
deriving DecidableEq, Repr

/-- `torch.device` values the app can select (app.py `get_device`). -/
inductive Device where
  | cuda
  | mps
  | cpu
deriving DecidableEq, Repr

/-- Opaque stand-in for a `Gaussians3D` primitive set returned by
`predict_image` (app.py line 159). -/
structure Gaussians3D where
  gid : Nat
deriving DecidableEq, Repr

/-- `SceneMetaData(f_px, (width, height), "linearRGB")` stored next to the
gaussians (app.py line 162).  Pixel quantities are modelled over `ℚ`. -/
structure SceneMetaData where
  focal_length_px : ℚ
  resolution_px : Nat × Nat
  color_space : String
deriving DecidableEq, Repr

/-- One rendered video frame (`video_writer.add_frame`, app.py line 401);
opaque payload. -/
structure Frame where
  fid : Nat
deriving DecidableEq, Repr

/-- The encoded video returned by `/api/generate-video`: the sequence of
frames that were added to the `VideoWriter` before `close` (app.py
lines 384-403). -/
structure Video where
  frames : List Frame
deriving DecidableEq, Repr

/-- An HTTP outcome: a successful payload, or `HTTPException(code, detail)`. -/
inductive Response (α : Type) where
  | ok : α → Response α
  | httpError : Nat → String → Response α
deriving DecidableEq, Repr

/-- Status code of a response; a plain payload is a 200. -/
def respStatus : Response α → Nat
  | .ok _ => 200
  | .httpError code _ => code

/-- Python-dict lookup on an association list (first binding wins, which is
the overwrite discipline of `dictSet` below). -/
def dictFind (k : String) : List (String × α) → Option α
  | [] => none
  | (k2, v) :: rest => if k = k2 then some v else dictFind k rest

/-- Python-dict assignment `m[k] = v`: the new binding shadows any older one
under `dictFind`. -/
def dictSet (k : String) (v : α) (m : List (String × α)) : List (String × α) :=
  (k, v) :: m

/-- `Path(p).exists()` against an explicit list of paths present on disk. -/
def pathExists (p : String) : List String → Bool
  | [] => false
  | q :: rest => if p = q then true else pathExists p rest

/-- The process-global mutable state of app.py: `predictor` (line 47),
`device` (line 48), `gaussian_storage` (line 52) and `ply_storage`
(line 53). -/
structure ServerState where
  predictor : Option Predictor
  device : Option Device
  gaussian_storage : List (String × (Gaussians3D × SceneMetaData))
  ply_storage : List (String × String)
deriving DecidableEq, Repr

/-- State at process start: no model loaded, both stores empty. -/
def initState : ServerState :=
  { predictor := none, device := none, gaussian_storage := [], ply_storage := [] }

/-! ### get_device and load_model (app.py lines 56-93) -/

/-- Environment probed by `get_device`: `torch.cuda.is_available()`,
`torch.backends.mps.is_available()`, and whether the latter raises
`AttributeError` (app.py lines 58-64). -/
structure SysEnv where
  cuda_available : Bool
  mps_available : Bool
  mps_attr_error : Bool
deriving DecidableEq, Repr

/-- `get_device` (app.py lines 56-65): CUDA, else MPS (unless probing raised
`AttributeError`), else CPU. -/
def get_device (env : SysEnv) : Device :=
  if env.cuda_available then .cuda
  else if !env.mps_attr_error && env.mps_available then .mps
  else .cpu

/-- Environment for `load_model`: the device probes plus the outcome of
`torch.hub.load_state_dict_from_url` (app.py line 82), which either yields a
state dict or raises. -/
structure LoadEnv where
  sys : SysEnv
  download : Except String StateDict
deriving Repr

/-- Result of a `load_model` call: the state afterwards, the re-raised
exception if any, and whether a checkpoint download was attempted. -/
structure LoadOut where
  state : ServerState
  error : Option String
  downloadAttempted : Bool
deriving DecidableEq, Repr

/-- `load_model` (app.py lines 68-93).  Returns at once when a predictor is
already resident; otherwise sets `device`, attempts the download (re-raising
its exception), and on success installs the predictor. -/
def load_model (env : LoadEnv) (st : ServerState) : LoadOut :=
  match st.predictor with
  | some _ => { state := st, error := none, downloadAttempted := false }
  | none =>
    let st1 := { st with device := some (get_device env.sys) }
    match env.download with
    | .error e => { state := st1, error := some e, downloadAttempted := true }
    | .ok sd =>
      { state := { st1 with predictor := some { weights := sd } }
        error := none
        downloadAttempted := true }

/-! ### get_ply (app.py lines 118-134) -/

/-- `get_ply` (app.py lines 118-134): 404 when the session id is not in
`ply_storage`, 404 when the stored path no longer exists on disk, else the
file.  The handler reads the globals and never assigns them, so the state is
returned unchanged. -/
def get_ply (fs : List String) (st : ServerState) (session_id : String) :
    Response String × ServerState :=
  match dictFind session_id st.ply_storage with
  | none => (.httpError 404 "PLY file not found", st)
  | some ply_path =>
    if pathExists ply_path fs then (.ok ply_path, st)
    else (.httpError 404 "PLY file does not exist", st)

/-! ### upload_image (app.py lines 137-182) -/

/-- Decoded upload: `np.array(Image.open(...).convert("RGB"))` with
`height, width = image_np.shape[:2]` (app.py lines 143-147). -/
structure DecodedImage where
  width : Nat
  height : Nat
deriving DecidableEq, Repr

/-- Environment for one `upload_image` call.  `decode` is the outcome of
reading and decoding the uploaded bytes; `convert_focallength` is the
external `sharp_io.convert_focallength` (line 150); `fresh_uuid` is the
`uuid.uuid4()` drawn at line 153; `predict` is the outcome of
`predict_image` (line 159); `export_ply` is the outcome of the temp-file
creation and `save_ply` (lines 166-168), yielding the written path. -/
structure UploadEnv where
  decode : Except String DecodedImage
  convert_focallength : Nat → Nat → ℚ → ℚ
  fresh_uuid : String
  predict : Except String Gaussians3D
  export_ply : Except String String

/-- The JSON body returned by a successful upload (app.py lines 173-179). -/
structure UploadResponse where
  session_id : String
  width : Nat
  height : Nat
  focal_length : ℚ
  ply_path : String
deriving DecidableEq, Repr

/-- Result of an `upload_image` call: the HTTP response, the state
afterwards, and the paths present on disk afterwards. -/
structure UploadOut where
  response : Response UploadResponse
  state : ServerState
  files : List String

/-- `upload_image` (app.py lines 137-182).  Every failure inside the `try`
block surfaces as `HTTPException(500, str(e))`.  The gaussian store is
written before the PLY export, so a failing export leaves the gaussian entry
behind while `ply_storage` is untouched. -/
def upload_image (env : UploadEnv) (fs : List String) (st : ServerState) : UploadOut :=
  match env.decode with
  | .error e => { response := .httpError 500 e, state := st, files := fs }
  | .ok img =>
    let f_px := env.convert_focallength img.width img.height 30
    let session_id := env.fresh_uuid
    match st.device with
    | none => { response := .httpError 500 "Device not initialized", state := st, files := fs }
    | some _ =>
      match env.predict with
      | .error e => { response := .httpError 500 e, state := st, files := fs }
      | .ok gaussians =>
        let metadata : SceneMetaData :=
          { focal_length_px := f_px
            resolution_px := (img.width, img.height)
            color_space := "linearRGB" }
        let st1 := { st with
          gaussian_storage := dictSet session_id (gaussians, metadata) st.gaussian_storage }
        match env.export_ply with
        | .error e => { response := .httpError 500 e, state := st1, files := fs }
        | .ok ply_path =>
          { response := .ok
              { session_id := session_id
                width := img.width
                height := img.height
                focal_length := f_px
                ply_path := "/api/ply/" ++ session_id }
            state := { st1 with ply_storage := dictSet session_id ply_path st1.ply_storage }
            files := ply_path :: fs }

/-! ### render_view (app.py lines 185-261) -/

/-- Environment for one `render_view` call: `torch.cuda.is_available()`
(line 201) and the outcome of the `try` block (lines 207-258) that builds the
camera, invokes `gsplat.GSplatRenderer` and saves the PNG; on success it
yields the temp PNG path. -/
structure RenderEnv where
  cuda_available : Bool
  render_result : Except String String
deriving Repr

/-- Result of a `render_view` or `generate_video` call with payload `α`:
the HTTP response, the state afterwards, and whether execution reached the
GPU rendering stage. -/
structure HandlerOut (α : Type) where
  response : Response α
  state : ServerState
  rendererInvoked : Bool
deriving Repr

/-- `render_view` (app.py lines 185-261).  Session lookup first (404,
line 195), then the CUDA check (503, line 201), and only then the rendering
`try` block whose exceptions become 500s.  The handler never assigns the
global stores. -/
def render_view (env : RenderEnv) (st : ServerState) (session_id : String)
    (eye_x eye_y eye_z : ℚ) (width height : Nat) : HandlerOut String :=
  match dictFind session_id st.gaussian_storage with
  | none => { response := .httpError 404 "Session not found", state := st, rendererInvoked := false }
  | some _ =>
    if !env.cuda_available then
      { response := .httpError 503
          "Rendering requires CUDA GPU. Server-side rendering is not available on this system."
        state := st
        rendererInvoked := false }
    else
      match env.render_result with
      | .ok png_path => { response := .ok png_path, state := st, rendererInvoked := true }
      | .error e => { response := .httpError 500 e, state := st, rendererInvoked := true }

/-! ### generate_video (app.py lines 316-416) -/

/-- `num_steps = 120` (app.py line 352, also `TrajectoryParams.num_steps`
at line 339). -/
def num_steps : Nat := 120

/-- The normalized rotation parameter of step `i`:
`t = (i / (num_steps - 1) - 0.5) * 0.5` (app.py line 356), over `ℚ`. -/
def traj_t (i : Nat) : ℚ :=
  ((i : ℚ) / ((num_steps - 1 : Nat) : ℚ) - 1 / 2) * (1 / 2)

/-- Camera position of step `i` of the custom trajectory (app.py
lines 357-360): `x = max_offset[0] * sin(2*pi*t)`,
`y = max_offset[1] * cos(2*pi*t)`, `z = 0`, over `ℝ`. -/
noncomputable def trajPoint (max_offset_x max_offset_y : ℝ) (i : Nat) : ℝ × ℝ × ℝ :=
  (max_offset_x * Real.sin (2 * Real.pi * (traj_t i : ℝ)),
   max_offset_y * Real.cos (2 * Real.pi * (traj_t i : ℝ)),
   0)

/-- The custom trajectory list built by the loop at app.py lines 353-360:
one camera position per step index in `range num_steps`. -/
noncomputable def trajectory (max_offset_x max_offset_y : ℝ) : List (ℝ × ℝ × ℝ) :=
  (List.range num_steps).map (trajPoint max_offset_x max_offset_y)

/-- Environment for one `generate_video` call: `torch.cuda.is_available()`
(line 325), the outcome of `camera.compute_max_offset` (lines 346-348,
inside the `try` block), and the outcome of rendering each trajectory step
(lines 387-401): the frame added to the video writer, or the exception that
aborts the whole job. -/
structure VideoEnv where
  cuda_available : Bool
  max_offset : Except String (ℚ × ℚ)
  frame_result : Nat → Except String Frame

/-- The rendering loop (app.py lines 387-401): renders the steps in order,
accumulating frames; the first exception aborts the job. -/
def renderSteps (frame_result : Nat → Except String Frame) :
    List Nat → Except String (List Frame)
  | [] => .ok []
  | i :: rest =>
    match frame_result i with
    | .error e => .error e
    | .ok f =>
      match renderSteps frame_result rest with
      | .error e => .error e
      | .ok fs => .ok (f :: fs)

/-- `generate_video` (app.py lines 316-416).  Session lookup first (404,
line 319), then the CUDA check (503, line 325), then the `try` block:
trajectory setup (`compute_max_offset` may raise) and one rendered frame per
trajectory step; any exception becomes a 500 and no partial video is
returned.  The handler takes only `session_id` — no resolution parameter —
and never assigns the global stores. -/
def generate_video (env : VideoEnv) (st : ServerState) (session_id : String) :
    HandlerOut Video :=
  match dictFind session_id st.gaussian_storage with
  | none => { response := .httpError 404 "Session not found", state := st, rendererInvoked := false }
  | some _ =>
    if !env.cuda_available then
      { response := .httpError 503
          "Video generation requires CUDA. Server-side rendering is not available on this system."
        state := st
        rendererInvoked := false }
    else
      match env.max_offset with
      | .error e => { response := .httpError 500 e, state := st, rendererInvoked := false }
      | .ok _ =>
        match renderSteps env.frame_result (List.range num_steps) with
        | .error e => { response := .httpError 500 e, state := st, rendererInvoked := true }
        | .ok frames =>
          { response := .ok { frames := frames }, state := st, rendererInvoked := true }

/-! ### Request traces

The process serves a sequence of requests against the global state.  An
`Event` is one request together with its environment; `stepWorld` executes it
on the current world (server state plus the paths on disk).  `runTrace` runs
a whole trace from process start. -/

/-- One request served by the process, with the environment it saw. -/
inductive Event where
  | upload (env : UploadEnv)
  | render (env : RenderEnv) (session_id : String) (eye_x eye_y eye_z : ℚ) (width height : Nat)
  | video (env : VideoEnv) (session_id : String)
  | getPly (session_id : String)
  | load (env : LoadEnv)

/-- Server state plus the set of paths present on disk. -/
structure World where
  st : ServerState
  fs : List String

/-- Executes one event.  `get_ply` reads but never writes; rendered PNG and
video temp files are not tracked in `fs` because no endpoint ever checks
them against `ply_storage` paths. -/
def stepWorld (w : World) : Event → World
  | .upload env =>
    let r := upload_image env w.fs w.st
    { st := r.state, fs := r.files }
  | .render env sid ex ey ez wd ht =>
    { w with st := (render_view env w.st sid ex ey ez wd ht).state }
  | .video env sid =>
    { w with st := (generate_video env w.st sid).state }
  | .getPly sid =>
    { w with st := (get_ply w.fs w.st sid).2 }
  | .load env =>
    { w with st := (load_model env w.st).state }

/-- Runs a trace of events from world `w`. -/
def execFrom (w : World) : List Event → World
  | [] => w
  | e :: es => execFrom (stepWorld w e) es

/-- The world at process start: fresh state, no tracked files. -/
def initWorld : World :=
  { st := initState, fs := [] }

/-- Runs a trace of events from process start. -/
def runTrace (es : List Event) : World :=
  execFrom initWorld es

/-! ## Helper lemmas -/

/-- `dictFind` after a `dictSet`: the fresh binding wins on its own key and
is invisible on every other key. -/
theorem dictFind_dictSet (k s : String) (v : α) (m : List (String × α)) :
    dictFind k (dictSet s v m) = if k = s then some v else dictFind k m := rfl

/-- A binding survives any `dictSet`. -/
theorem dictFind_isSome_dictSet (k s : String) (v : α) (m : List (String × α))
    (h : (dictFind k m).isSome = true) : (dictFind k (dictSet s v m)).isSome = true := by
  rw [dictFind_dictSet]
  by_cases hk : k = s <;> simp [hk, h]

/-- A path is present after being added to the disk set. -/
theorem pathExists_cons_self (p : String) (fs : List String) :
    pathExists p (p :: fs) = true := by
  simp [pathExists]

/-- `render_view` never changes the server state. -/
theorem render_view_state (env : RenderEnv) (st : ServerState) (sid : String)
    (ex ey ez : ℚ) (w h : Nat) : (render_view env st sid ex ey ez w h).state = st := by
  unfold render_view
  cases dictFind sid st.gaussian_storage with
  | none => rfl
  | some v =>
    cases env.cuda_available with
    | false => rfl
    | true => cases env.render_result <;> rfl

/-- `generate_video` never changes the server state. -/
theorem generate_video_state (env : VideoEnv) (st : ServerState) (sid : String) :
    (generate_video env st sid).state = st := by
  unfold generate_video
  cases dictFind sid st.gaussian_storage with
  | none => rfl
  | some v =>
    cases env.cuda_available with
    | false => rfl
    | true =>
      cases env.max_offset with
      | error e => rfl
      | ok mo => cases renderSteps env.frame_result (List.range num_steps) <;> rfl

/-- `get_ply` never changes the server state. -/
theorem get_ply_state (fs : List String) (st : ServerState) (sid : String) :
    (get_ply fs st sid).2 = st := by
  unfold get_ply
  cases dictFind sid st.ply_storage with
  | none => rfl
  | some p =>
    by_cases hp : pathExists p fs = true <;> simp [hp]

/-- `load_model` touches only `predictor` and `device`: both session stores
are unchanged. -/
theorem load_model_stores (env : LoadEnv) (st : ServerState) :
    (load_model env st).state.gaussian_storage = st.gaussian_storage ∧
    (load_model env st).state.ply_storage = st.ply_storage := by
  unfold load_model
  cases st.predictor with
  | some p => exact ⟨rfl, rfl⟩
  | none => cases env.download <;> exact ⟨rfl, rfl⟩

/-- A successful rendering loop yields one frame per step. -/
theorem renderSteps_length (fr : Nat → Except String Frame) :
    ∀ (l : List Nat) (fs : List Frame), renderSteps fr l = .ok fs → fs.length = l.length := by
  intro l
  induction l with
  | nil => intro fs h; cases h; rfl
  | cons i rest ih =>
    intro fs h
    unfold renderSteps at h
    cases hi : fr i with
    | error e => rw [hi] at h; cases h
    | ok f =>
      rw [hi] at h
      cases hr : renderSteps fr rest with
      | error e => rw [hr] at h; cases h
      | ok gs =>
        rw [hr] at h
        cases h
        simp [ih gs hr]

/-- If `upload_image` makes a session id visible in the gaussian store, the
id was either there already or it is this upload's fresh uuid, in which case
the decode and the prediction both succeeded. -/
theorem upload_mem_gaussian (env : UploadEnv) (fs : List String) (st : ServerState)
    (sid : String)
    (h : (dictFind sid (upload_image env fs st).state.gaussian_storage).isSome = true) :
    (dictFind sid st.gaussian_storage).isSome = true ∨
      (env.fresh_uuid = sid ∧ (∃ img, env.decode = .ok img) ∧ ∃ g, env.predict = .ok g) := by
  unfold upload_image at h
  cases hd : env.decode with
  | error e => rw [hd] at h; exact .inl h
  | ok img =>
    rw [hd] at h
    cases hdev : st.device with
    | none => rw [hdev] at h; exact .inl h
    | some d =>
      rw [hdev] at h
      cases hp : env.predict with
      | error e => rw [hp] at h; exact .inl h
      | ok g =>
        rw [hp] at h
        cases he : env.export_ply with
        | error e =>
          rw [he] at h
          rw [dictFind_dictSet] at h
          by_cases hk : sid = env.fresh_uuid
          · exact .inr ⟨hk.symm, ⟨img, rfl⟩, ⟨g, rfl⟩⟩
          · rw [if_neg hk] at h
            exact .inl h
        | ok path =>
          rw [he] at h
          rw [dictFind_dictSet] at h
          by_cases hk : sid = env.fresh_uuid
          · exact .inr ⟨hk.symm, ⟨img, rfl⟩, ⟨g, rfl⟩⟩
          · rw [if_neg hk] at h
            exact .inl h

/-- One step: a session id visible in the gaussian store afterwards was
visible before, or the step was an upload with that fresh uuid whose decode
and prediction succeeded. -/
theorem stepWorld_mem_gaussian (w : World) (e : Event) (sid : String)
    (h : (dictFind sid (stepWorld w e).st.gaussian_storage).isSome = true) :
    (dictFind sid w.st.gaussian_storage).isSome = true ∨
      ∃ env, e = Event.upload env ∧ env.fresh_uuid = sid ∧
        (∃ img, env.decode = .ok img) ∧ ∃ g, env.predict = .ok g := by
  cases e with
  | upload env =>
    cases upload_mem_gaussian env w.fs w.st sid h with
    | inl hl => exact .inl hl
    | inr hr => exact .inr ⟨env, rfl, hr.1, hr.2.1, hr.2.2⟩
  | render env sid2 ex ey ez wd ht =>
    rw [show (stepWorld w (.render env sid2 ex ey ez wd ht)).st
          = (render_view env w.st sid2 ex ey ez wd ht).state from rfl,
        render_view_state] at h
    exact .inl h
  | video env sid2 =>
    rw [show (stepWorld w (.video env sid2)).st = (generate_video env w.st sid2).state from rfl,
        generate_video_state] at h
    exact .inl h
  | getPly sid2 =>
    rw [show (stepWorld w (.getPly sid2)).st = (get_ply w.fs w.st sid2).2 from rfl,
        get_ply_state] at h
    exact .inl h
  | load env =>
    rw [show (stepWorld w (.load env)).st = (load_model env w.st).state from rfl] at h
    rw [(load_model_stores env w.st).1] at h
    exact .inl h

/-- Trace invariant: a session id visible in the gaussian store after a
trace was visible at the start, or some upload event of the trace carried it
as its fresh uuid with a successful decode and prediction. -/
theorem execFrom_mem_gaussian :
    ∀ (es : List Event) (w : World) (sid : String),
    (dictFind sid (execFrom w es).st.gaussian_storage).isSome = true →
    (dictFind sid w.st.gaussian_storage).isSome = true ∨
      ∃ env, Event.upload env ∈ es ∧ env.fresh_uuid = sid ∧
        (∃ img, env.decode = .ok img) ∧ ∃ g, env.predict = .ok g := by
  intro es
  induction es with
  | nil => intro w sid h; exact .inl h
  | cons e rest ih =>
    intro w sid h
    rw [show execFrom w (e :: rest) = execFrom (stepWorld w e) rest from rfl] at h
    cases ih (stepWorld w e) sid h with
    | inr hr =>
      obtain ⟨env, hmem, hrest⟩ := hr
      exact .inr ⟨env, List.mem_cons_of_mem e hmem, hrest⟩
    | inl hl =>
      cases stepWorld_mem_gaussian w e sid hl with
      | inl hl2 => exact .inl hl2
      | inr hr2 =>
        obtain ⟨env, he, hrest⟩ := hr2
        exact .inr ⟨env, he ▸ List.mem_cons_self e rest, hrest⟩

/-! ## Claim theorems -/

/-- C2: a request to `/api/render` whose `session_id` is not in the gaussian
session store is answered 404 "Session not found"; because the session
lookup (app.py line 195) precedes the CUDA check (line 201), this holds for
every environment, in particular on a machine without CUDA. -/
theorem render_unknown_session_404 (env : RenderEnv) (st : ServerState)
    (session_id : String) (ex ey ez : ℚ) (w h : Nat)
    (hs : dictFind session_id st.gaussian_storage = none) :
    (render_view env st session_id ex ey ez w h).response
      = .httpError 404 "Session not found" := by
  unfold render_view
  rw [hs]

/-- Witness for C2: on a machine without CUDA, an unknown session id still
gets the 404, not the 503. -/
theorem render_unknown_session_404_witness :
    dictFind "missing" initState.gaussian_storage = none ∧
    (render_view { cuda_available := false, render_result := .error "no CUDA" }
        initState "missing" 0 0 0 800 600).response
      = .httpError 404 "Session not found" :=
  ⟨rfl, render_unknown_session_404
    { cuda_available := false, render_result := .error "no CUDA" }
    initState "missing" 0 0 0 800 600 rfl⟩

/-- C3: for a stored session, when no CUDA accelerator is available both
`/api/render` and `/api/generate-video` answer 503 and never reach the
renderer — there is no CPU fallback (app.py lines 200-205 and 324-329). -/
theorem valid_session_no_cuda_503 (renv : RenderEnv) (venv : VideoEnv)
    (st : ServerState) (session_id : String) (ex ey ez : ℚ) (w h : Nat)
    (entry : Gaussians3D × SceneMetaData)
    (hs : dictFind session_id st.gaussian_storage = some entry)
    (hr : renv.cuda_available = false) (hv : venv.cuda_available = false) :
    (respStatus (render_view renv st session_id ex ey ez w h).response = 503 ∧
     (render_view renv st session_id ex ey ez w h).rendererInvoked = false) ∧
    (respStatus (generate_video venv st session_id).response = 503 ∧
     (generate_video venv st session_id).rendererInvoked = false) := by
  unfold render_view generate_video
  rw [hs, hr, hv]
  exact ⟨⟨rfl, rfl⟩, ⟨rfl, rfl⟩⟩

/-- Witness for C3: a concretely stored session answered 503 by both
handlers on a CUDA-less machine. -/
theorem valid_session_no_cuda_503_witness :
    let stW : ServerState :=
      { predictor := none, device := none
        gaussian_storage :=
          [("s", ({ gid := 0 },
            { focal_length_px := 100, resolution_px := (4, 3), color_space := "linearRGB" }))]
        ply_storage := [] }
    (respStatus (render_view { cuda_available := false, render_result := .error "e" }
        stW "s" 0 0 0 800 600).response = 503 ∧
     (render_view { cuda_available := false, render_result := .error "e" }
        stW "s" 0 0 0 800 600).rendererInvoked = false) ∧
    (respStatus (generate_video
        { cuda_available := false, max_offset := .ok (1, 1), frame_result := fun i => .ok { fid := i } }
        stW "s").response = 503 ∧
     (generate_video
        { cuda_available := false, max_offset := .ok (1, 1), frame_result := fun i => .ok { fid := i } }
        stW "s").rendererInvoked = false) :=
  valid_session_no_cuda_503 _ _ _ "s" 0 0 0 800 600 _ rfl rfl rfl

/-- C7: `/api/ply/{session_id}` is a pure lookup plus existence check: the
state is unchanged, the answer is a 404 exactly when the id is absent from
`ply_storage` or the stored path is gone from disk, and otherwise it is the
stored file (app.py lines 118-134). -/
theorem get_ply_lookup_spec (fs : List String) (st : ServerState) (session_id : String) :
    (get_ply fs st session_id).2 = st ∧
    (respStatus (get_ply fs st session_id).1 = 404 ↔
      dictFind session_id st.ply_storage = none ∨
        ∃ p, dictFind session_id st.ply_storage = some p ∧ pathExists p fs = false) ∧
    (∀ p, dictFind session_id st.ply_storage = some p → pathExists p fs = true →
      (get_ply fs st session_id).1 = .ok p) := by
  refine ⟨get_ply_state fs st session_id, ?_, ?_⟩
  · unfold get_ply
    cases hd : dictFind session_id st.ply_storage with
    | none => simp [respStatus]
    | some p =>
      by_cases hp : pathExists p fs = true
      · simp [hp, respStatus]
      · simp only [Bool.not_eq_true] at hp
        simp [hp, respStatus]
  · intro p hp hex
    unfold get_ply
    rw [hp]
    simp [hex]

/-- Witness for C7: a stored session whose file is on disk is served, and a
missing id is a 404. -/
theorem get_ply_lookup_spec_witness :
    let stW : ServerState :=
      { predictor := none, device := none, gaussian_storage := []
        ply_storage := [("s", "file.ply")] }
    (get_ply ["file.ply"] stW "s").1 = .ok "file.ply" ∧
    respStatus (get_ply ["file.ply"] stW "missing").1 = 404 :=
  ⟨(get_ply_lookup_spec ["file.ply"] _ "s").2.2 "file.ply" rfl rfl,
   (get_ply_lookup_spec ["file.ply"] _ "missing").2.1.mpr (.inl rfl)⟩

/-- C8: `load_model` is idempotent — with a predictor already resident it
returns at once, changing nothing and attempting no download (app.py
lines 71-72) — and a failing checkpoint download re-raises, leaving no
predictor installed, so startup aborts instead of retrying (lines 80-86). -/
theorem load_model_idempotent_fatal (env : LoadEnv) (st : ServerState) :
    (∀ p, st.predictor = some p →
      load_model env st = { state := st, error := none, downloadAttempted := false }) ∧
    (st.predictor = none →
      (load_model env st).downloadAttempted = true ∧
      ∀ e, env.download = .error e →
        (load_model env st).error = some e ∧
        (load_model env st).state.predictor = none) := by
  constructor
  · intro p hp
    unfold load_model
    rw [hp]
  · intro hn
    refine ⟨?_, ?_⟩
    · unfold load_model
      rw [hn]
      cases env.download <;> rfl
    · intro e he
      unfold load_model
      rw [hn, he]
      exact ⟨rfl, rfl⟩

/-- Witness for C8: a second call with a resident predictor is a no-op, and
a failing download surfaces its exception. -/
theorem load_model_idempotent_fatal_witness :
    let stW : ServerState :=
      { predictor := some { weights := { sd := 5 } }, device := some .cuda
        gaussian_storage := [], ply_storage := [] }
    load_model { sys := { cuda_available := true, mps_available := false, mps_attr_error := false }
                 download := .error "network down" } stW
      = { state := stW, error := none, downloadAttempted := false } ∧
    (load_model { sys := { cuda_available := true, mps_available := false, mps_attr_error := false }
                  download := .error "network down" } initState).error = some "network down" :=
  ⟨(load_model_idempotent_fatal _ _).1 _ rfl,
   ((load_model_idempotent_fatal _ initState).2 rfl).2 "network down" rfl |>.1⟩

/-- `upload_image` only ever adds bindings to the gaussian store. -/
theorem upload_gaussian_keys (env : UploadEnv) (fs : List String) (st : ServerState)
    (k : String) (h : (dictFind k st.gaussian_storage).isSome = true) :
    (dictFind k (upload_image env fs st).state.gaussian_storage).isSome = true := by
  unfold upload_image
  cases env.decode with
  | error e => exact h
  | ok img =>
    cases st.device with
    | none => exact h
    | some d =>
      cases env.predict with
      | error e => exact h
      | ok g =>
        cases env.export_ply with
        | error e => exact dictFind_isSome_dictSet _ _ _ _ h
        | ok path => exact dictFind_isSome_dictSet _ _ _ _ h

/-- `upload_image` only ever adds bindings to the PLY path store. -/
theorem upload_ply_keys (env : UploadEnv) (fs : List String) (st : ServerState)
    (k : String) (h : (dictFind k st.ply_storage).isSome = true) :
    (dictFind k (upload_image env fs st).state.ply_storage).isSome = true := by
  unfold upload_image
  cases env.decode with
  | error e => exact h
  | ok img =>
    cases st.device with
    | none => exact h
    | some d =>
      cases env.predict with
      | error e => exact h
      | ok g =>
        cases env.export_ply with
        | error e => exact h
        | ok path => exact dictFind_isSome_dictSet _ _ _ _ h

/-- C9: the render and video handlers never modify the gaussian session
store or the PLY path store (their result state is the input state); the
PLY lookup and the model loader leave both stores alone too; and the upload
handler only inserts — every binding present before any handler runs is
still present afterwards. -/
theorem handlers_frame_condition :
    (∀ (env : RenderEnv) (st : ServerState) (sid : String) (ex ey ez : ℚ) (w h : Nat),
      (render_view env st sid ex ey ez w h).state = st) ∧
    (∀ (env : VideoEnv) (st : ServerState) (sid : String),
      (generate_video env st sid).state = st) ∧
    (∀ (fs : List String) (st : ServerState) (sid : String), (get_ply fs st sid).2 = st) ∧
    (∀ (env : LoadEnv) (st : ServerState),
      (load_model env st).state.gaussian_storage = st.gaussian_storage ∧
      (load_model env st).state.ply_storage = st.ply_storage) ∧
    (∀ (env : UploadEnv) (fs : List String) (st : ServerState) (k : String),
      ((dictFind k st.gaussian_storage).isSome = true →
        (dictFind k (upload_image env fs st).state.gaussian_storage).isSome = true) ∧
      ((dictFind k st.ply_storage).isSome = true →
        (dictFind k (upload_image env fs st).state.ply_storage).isSome = true)) :=
  ⟨render_view_state, generate_video_state, get_ply_state, load_model_stores,
   fun env fs st k => ⟨upload_gaussian_keys env fs st k, upload_ply_keys env fs st k⟩⟩

/-- Witness for C9: a concrete stored binding survives a failed render, a
video request, and a further upload. -/
theorem handlers_frame_condition_witness :
    let stW : ServerState :=
      { predictor := none, device := some .cuda
        gaussian_storage :=
          [("s", ({ gid := 0 },
            { focal_length_px := 100, resolution_px := (4, 3), color_space := "linearRGB" }))]
        ply_storage := [("s", "file.ply")] }
    (render_view { cuda_available := true, render_result := .error "boom" }
        stW "s" 0 0 0 800 600).state = stW ∧
    (generate_video
        { cuda_available := true, max_offset := .ok (1, 1), frame_result := fun _ => .error "boom" }
        stW "s").state = stW ∧
    (dictFind "s" (upload_image
        { decode := .ok { width := 8, height := 6 }
          convert_focallength := fun _ _ _ => 50
          fresh_uuid := "s2", predict := .ok { gid := 1 }, export_ply := .ok "file2.ply" }
        ["file.ply"] stW).state.gaussian_storage).isSome = true :=
  ⟨handlers_frame_condition.1 _ _ "s" 0 0 0 800 600,
   handlers_frame_condition.2.1 _ _ "s",
   (handlers_frame_condition.2.2.2.2 _ ["file.ply"] _ "s").1 rfl⟩

/-- C4: a successful `/api/generate-video` request yields a video with
exactly `num_steps = 120` frames, one per trajectory step, for every stored
session — in particular for every stored image resolution; the handler's
only input is `session_id` (app.py line 317), so no resolution parameter
exists. -/
theorem video_success_has_120_frames (env : VideoEnv) (st : ServerState)
    (session_id : String) (v : Video)
    (h : (generate_video env st session_id).response = .ok v) :
    v.frames.length = num_steps ∧ num_steps = 120 := by
  refine ⟨?_, rfl⟩
  unfold generate_video at h
  cases hs : dictFind session_id st.gaussian_storage with
  | none => rw [hs] at h; cases h
  | some entry =>
    rw [hs] at h
    cases hc : env.cuda_available with
    | false => rw [hc] at h; cases h
    | true =>
      rw [hc] at h
      cases hm : env.max_offset with
      | error e => rw [hm] at h; cases h
      | ok mo =>
        rw [hm] at h
        cases hr : renderSteps env.frame_result (List.range num_steps) with
        | error e => rw [hr] at h; cases h
        | ok frames =>
          rw [hr] at h
          cases h
          rw [show ({ frames := frames } : Video).frames = frames from rfl]
          rw [renderSteps_length env.frame_result (List.range num_steps) frames hr]
          exact List.length_range num_steps

/-- Witness for C4: a concrete all-frames-succeed run produces the 120-frame
video. -/
theorem video_success_has_120_frames_witness :
    (generate_video
        { cuda_available := true, max_offset := .ok (1, 1), frame_result := fun i => .ok { fid := i } }
        { predictor := none, device := none
          gaussian_storage :=
            [("s", ({ gid := 0 },
              { focal_length_px := 100, resolution_px := (4, 3), color_space := "linearRGB" }))]
          ply_storage := [] }
        "s").response = .ok { frames := (List.range 120).map Frame.mk } ∧
    ({ frames := (List.range 120).map Frame.mk } : Video).frames.length = num_steps ∧
      num_steps = 120 :=
  have h : (generate_video
      { cuda_available := true, max_offset := .ok (1, 1), frame_result := fun i => .ok { fid := i } }
      { predictor := none, device := none
        gaussian_storage :=
          [("s", ({ gid := 0 },
            { focal_length_px := 100, resolution_px := (4, 3), color_space := "linearRGB" }))]
        ply_storage := [] }
      "s").response = .ok { frames := (List.range 120).map Frame.mk } := by decide
  ⟨h, video_success_has_120_frames _ _ "s" _ h⟩

/-- C6: a successful upload of a decodable image responds with the fresh
session id, the decoded dimensions, the focal length
`convert_focallength(width, height, 30.0)` and the retrieval path
`/api/ply/{id}`; the id is then in the PLY store with its exported file on
disk, so an immediate `GET /api/ply/{id}` succeeds.  The id is the freshly
drawn uuid, hence distinct from any set of ids not containing that uuid
(uuid freshness itself is an assumption about `uuid.uuid4`). -/
theorem upload_success_contract (env : UploadEnv) (fs : List String) (st : ServerState)
    (img : DecodedImage) (resp : UploadResponse)
    (hd : env.decode = .ok img)
    (h : (upload_image env fs st).response = .ok resp) :
    resp.session_id = env.fresh_uuid ∧
    resp.width = img.width ∧ resp.height = img.height ∧
    resp.focal_length = env.convert_focallength img.width img.height 30 ∧
    resp.ply_path = "/api/ply/" ++ env.fresh_uuid ∧
    (∃ p, dictFind resp.session_id (upload_image env fs st).state.ply_storage = some p ∧
      (get_ply (upload_image env fs st).files (upload_image env fs st).state
        resp.session_id).1 = .ok p) ∧
    (∀ S : List String, env.fresh_uuid ∉ S → resp.session_id ∉ S) := by
  cases hdev : st.device with
  | none =>
    have hresp : (upload_image env fs st).response = .httpError 500 "Device not initialized" := by
      unfold upload_image
      rw [hd, hdev]
    rw [hresp] at h
    cases h
  | some d =>
    cases hp : env.predict with
    | error e =>
      have hresp : (upload_image env fs st).response = .httpError 500 e := by
        unfold upload_image
        rw [hd, hdev, hp]
      rw [hresp] at h
      cases h
    | ok g =>
      cases he : env.export_ply with
      | error e =>
        have hresp : (upload_image env fs st).response = .httpError 500 e := by
          unfold upload_image
          rw [hd, hdev, hp, he]
        rw [hresp] at h
        cases h
      | ok path =>
        have key : upload_image env fs st =
          { response := .ok
              { session_id := env.fresh_uuid
                width := img.width
                height := img.height
                focal_length := env.convert_focallength img.width img.height 30
                ply_path := "/api/ply/" ++ env.fresh_uuid }
            state := { st with
              gaussian_storage := dictSet env.fresh_uuid
                (g, { focal_length_px := env.convert_focallength img.width img.height 30
                      resolution_px := (img.width, img.height)
                      color_space := "linearRGB" }) st.gaussian_storage
              ply_storage := dictSet env.fresh_uuid path st.ply_storage }
            files := path :: fs } := by
          unfold upload_image
          rw [hd, hdev, hp, he]
        rw [key] at h
        cases h
        refine ⟨rfl, rfl, rfl, rfl, rfl, ⟨path, ?_, ?_⟩, ?_⟩
        · rw [key]
          show dictFind env.fresh_uuid (dictSet env.fresh_uuid path st.ply_storage) = some path
          rw [dictFind_dictSet, if_pos rfl]
        · rw [key]
          unfold get_ply
          show (match dictFind env.fresh_uuid (dictSet env.fresh_uuid path st.ply_storage) with
            | none => (Response.httpError 404 "PLY file not found", _)
            | some ply_path =>
              if pathExists ply_path (path :: fs) = true then (Response.ok ply_path, _)
              else (Response.httpError 404 "PLY file does not exist", _)).1 = Response.ok path
          rw [dictFind_dictSet, if_pos rfl]
          simp [pathExists_cons_self]
        · intro S hS
          exact hS

/-- Witness for C6: a concrete successful upload and the immediate PLY
retrieval. -/
theorem upload_success_contract_witness :
    let envW : UploadEnv :=
      { decode := .ok { width := 8, height := 6 }
        convert_focallength := fun _ _ _ => 50
        fresh_uuid := "u1", predict := .ok { gid := 1 }, export_ply := .ok "out.ply" }
    let stW : ServerState :=
      { predictor := none, device := some .cuda, gaussian_storage := [], ply_storage := [] }
    let respW : UploadResponse :=
      { session_id := "u1", width := 8, height := 6, focal_length := 50
        ply_path := "/api/ply/u1" }
    (upload_image envW [] stW).response = .ok respW ∧
    respW.session_id = "u1" ∧
    (∃ p, dictFind respW.session_id (upload_image envW [] stW).state.ply_storage = some p ∧
      (get_ply (upload_image envW [] stW).files (upload_image envW [] stW).state
        respW.session_id).1 = .ok p) ∧
    respW.session_id ∉ (["a", "b"] : List String) :=
  have h : (upload_image
      { decode := .ok { width := 8, height := 6 }
        convert_focallength := fun _ _ _ => 50
        fresh_uuid := "u1", predict := .ok { gid := 1 }, export_ply := .ok "out.ply" } []
      { predictor := none, device := some .cuda, gaussian_storage := [], ply_storage := [] }).response
      = .ok { session_id := "u1", width := 8, height := 6, focal_length := 50
              ply_path := "/api/ply/u1" } := by decide
  have hc := upload_success_contract _ [] _ { width := 8, height := 6 } _ rfl h
  ⟨h, hc.1, hc.2.2.2.2.2.1, hc.2.2.2.2.2.2 ["a", "b"] (by decide)⟩

/-- C10: when the PLY export fails after a successful prediction, the upload
answers 500 with the exception text (no session id in the body), yet the
gaussian store has gained the session entry while the PLY store is
unchanged — so the orphaned id is renderable (never 404 on `/api/render`)
but its `/api/ply` lookup is a 404 (app.py lines 160-182). -/
theorem upload_ply_failure_nonatomic (env : UploadEnv) (fs : List String) (st : ServerState)
    (img : DecodedImage) (d : Device) (g : Gaussians3D) (e : String)
    (hd : env.decode = .ok img) (hdev : st.device = some d)
    (hp : env.predict = .ok g) (he : env.export_ply = .error e)
    (hfresh : dictFind env.fresh_uuid st.ply_storage = none) :
    (upload_image env fs st).response = .httpError 500 e ∧
    dictFind env.fresh_uuid (upload_image env fs st).state.gaussian_storage
      = some (g, { focal_length_px := env.convert_focallength img.width img.height 30
                   resolution_px := (img.width, img.height)
                   color_space := "linearRGB" }) ∧
    (upload_image env fs st).state.ply_storage = st.ply_storage ∧
    respStatus (get_ply (upload_image env fs st).files (upload_image env fs st).state
      env.fresh_uuid).1 = 404 ∧
    (∀ (renv : RenderEnv) (ex ey ez : ℚ) (w h2 : Nat),
      respStatus (render_view renv (upload_image env fs st).state
        env.fresh_uuid ex ey ez w h2).response ≠ 404) := by
  have key : upload_image env fs st =
    { response := .httpError 500 e
      state := { st with
        gaussian_storage := dictSet env.fresh_uuid
          (g, { focal_length_px := env.convert_focallength img.width img.height 30
                resolution_px := (img.width, img.height)
                color_space := "linearRGB" }) st.gaussian_storage }
      files := fs } := by
    unfold upload_image
    rw [hd, hdev, hp, he]
  refine ⟨?_, ?_, ?_, ?_, ?_⟩
  · rw [key]
  · rw [key]
    show dictFind env.fresh_uuid (dictSet env.fresh_uuid _ st.gaussian_storage) = _
    rw [dictFind_dictSet, if_pos rfl]
  · rw [key]
  · rw [key]
    unfold get_ply
    show respStatus (match dictFind env.fresh_uuid st.ply_storage with
      | none => (Response.httpError 404 "PLY file not found", _)
      | some ply_path =>
        if pathExists ply_path fs = true then (Response.ok ply_path, _)
        else (Response.httpError 404 "PLY file does not exist", _)).1 = 404
    rw [hfresh]
    rfl
  · intro renv ex ey ez w h2
    rw [key]
    unfold render_view
    show respStatus (match dictFind env.fresh_uuid
        (dictSet env.fresh_uuid _ st.gaussian_storage) with
      | none => _
      | some _ => _ : HandlerOut String).response ≠ 404
    rw [dictFind_dictSet, if_pos rfl]
    cases renv.cuda_available with
    | false => simp [respStatus]
    | true => cases renv.render_result <;> simp [respStatus]

/-- Witness for C10: a concrete failed export leaving an orphaned,
renderable session. -/
theorem upload_ply_failure_nonatomic_witness :
    let envW : UploadEnv :=
      { decode := .ok { width := 8, height := 6 }
        convert_focallength := fun _ _ _ => 50
        fresh_uuid := "u1", predict := .ok { gid := 1 }, export_ply := .error "disk full" }
    let stW : ServerState :=
      { predictor := none, device := some .cuda, gaussian_storage := [], ply_storage := [] }
    (upload_image envW [] stW).response = .httpError 500 "disk full" ∧
    dictFind "u1" (upload_image envW [] stW).state.gaussian_storage
      = some ({ gid := 1 },
          { focal_length_px := 50, resolution_px := (8, 6), color_space := "linearRGB" }) ∧
    respStatus (get_ply (upload_image envW [] stW).files (upload_image envW [] stW).state
      "u1").1 = 404 ∧
    respStatus (render_view { cuda_available := false, render_result := .error "no CUDA" }
      (upload_image envW [] stW).state "u1" 0 0 0 800 600).response ≠ 404 :=
  have hc := upload_ply_failure_nonatomic
    { decode := .ok { width := 8, height := 6 }
      convert_focallength := fun _ _ _ => 50
      fresh_uuid := "u1", predict := .ok { gid := 1 }, export_ply := .error "disk full" } []
    { predictor := none, device := some .cuda, gaussian_storage := [], ply_storage := [] }
    { width := 8, height := 6 } .cuda { gid := 1 } "disk full" rfl rfl rfl rfl rfl
  ⟨hc.1, hc.2.1, hc.2.2.2.1,
   hc.2.2.2.2 { cuda_available := false, render_result := .error "no CUDA" } 0 0 0 800 600⟩

/-- Counterexample to C1 as stated: in the two-request trace below the only
upload fails (its PLY export raises, so the client gets a 500 — not a
successful upload), yet its session id sits in the gaussian store and a
later `/api/render` request for that id is accepted (not rejected with 404).
So an accepted id need not come from a *successful* upload. -/
theorem accepted_session_from_failed_upload_cex :
    let lenv : LoadEnv :=
      { sys := { cuda_available := false, mps_available := false, mps_attr_error := false }
        download := .ok { sd := 0 } }
    let uenv : UploadEnv :=
      { decode := .ok { width := 4, height := 3 }
        convert_focallength := fun _ _ _ => 100
        fresh_uuid := "sid0", predict := .ok { gid := 7 }, export_ply := .error "disk full" }
    (upload_image uenv (stepWorld initWorld (.load lenv)).fs
        (stepWorld initWorld (.load lenv)).st).response = .httpError 500 "disk full" ∧
    (dictFind "sid0" (runTrace [.load lenv, .upload uenv]).st.gaussian_storage).isSome = true ∧
    respStatus (render_view { cuda_available := true, render_result := .ok "img.png" }
      (runTrace [.load lenv, .upload uenv]).st "sid0" 0 0 0 800 600).response ≠ 404 := by
  decide

/-- C1 (amended): every session id visible in the gaussian store after a
trace of requests was put there by a prior upload request that drew it as
its fresh uuid and whose decode and prediction succeeded — though that
upload need not have completed successfully, since a later PLY-export
failure still leaves the entry (see the counterexample); both handlers
accept an id exactly when it is in the store, and an absent id gets a 404
"Session not found" with no renderer invocation and no crash. -/
theorem accepted_session_from_prior_upload :
    (∀ (es : List Event) (sid : String),
      (dictFind sid (runTrace es).st.gaussian_storage).isSome = true →
      ∃ env, Event.upload env ∈ es ∧ env.fresh_uuid = sid ∧
        (∃ img, env.decode = .ok img) ∧ ∃ g, env.predict = .ok g) ∧
    (∀ (renv : RenderEnv) (st : ServerState) (sid : String) (ex ey ez : ℚ) (w h : Nat),
      respStatus (render_view renv st sid ex ey ez w h).response ≠ 404 →
      (dictFind sid st.gaussian_storage).isSome = true) ∧
    (∀ (venv : VideoEnv) (st : ServerState) (sid : String),
      respStatus (generate_video venv st sid).response ≠ 404 →
      (dictFind sid st.gaussian_storage).isSome = true) ∧
    (∀ (renv : RenderEnv) (st : ServerState) (sid : String) (ex ey ez : ℚ) (w h : Nat),
      dictFind sid st.gaussian_storage = none →
      (render_view renv st sid ex ey ez w h).response = .httpError 404 "Session not found" ∧
      (render_view renv st sid ex ey ez w h).rendererInvoked = false) ∧
    (∀ (venv : VideoEnv) (st : ServerState) (sid : String),
      dictFind sid st.gaussian_storage = none →
      (generate_video venv st sid).response = .httpError 404 "Session not found" ∧
      (generate_video venv st sid).rendererInvoked = false) := by
  refine ⟨?_, ?_, ?_, ?_, ?_⟩
  · intro es sid h
    cases execFrom_mem_gaussian es initWorld sid h with
    | inl hl => simp [initWorld, initState, dictFind] at hl
    | inr hr => exact hr
  · intro renv st sid ex ey ez w h hne
    cases hs : dictFind sid st.gaussian_storage with
    | some entry => rfl
    | none =>
      exfalso
      apply hne
      have hresp : (render_view renv st sid ex ey ez w h).response
          = .httpError 404 "Session not found" := by
        unfold render_view
        rw [hs]
      rw [hresp]
      rfl
  · intro venv st sid hne
    cases hs : dictFind sid st.gaussian_storage with
    | some entry => rfl
    | none =>
      exfalso
      apply hne
      have hresp : (generate_video venv st sid).response
          = .httpError 404 "Session not found" := by
        unfold generate_video
        rw [hs]
      rw [hresp]
      rfl
  · intro renv st sid ex ey ez w h hs
    unfold render_view
    rw [hs]
    exact ⟨rfl, rfl⟩
  · intro venv st sid hs
    unfold generate_video
    rw [hs]
    exact ⟨rfl, rfl⟩

/-- Witness for the amended C1: a stored id on a concrete trace traces back
to its upload event, and a fresh server answers 404 without rendering. -/
theorem accepted_session_from_prior_upload_witness :
    (dictFind "u1" (runTrace
      [.load { sys := { cuda_available := true, mps_available := false, mps_attr_error := false }
               download := .ok { sd := 0 } },
       .upload { decode := .ok { width := 4, height := 3 }
                 convert_focallength := fun _ _ _ => 100
                 fresh_uuid := "u1", predict := .ok { gid := 7 }, export_ply := .ok "a.ply" }]
      ).st.gaussian_storage).isSome = true ∧
    (∃ env, Event.upload env ∈
      [Event.load { sys := { cuda_available := true, mps_available := false, mps_attr_error := false }
                    download := .ok { sd := 0 } },
       Event.upload { decode := .ok { width := 4, height := 3 }
                      convert_focallength := fun _ _ _ => 100
                      fresh_uuid := "u1", predict := .ok { gid := 7 }, export_ply := .ok "a.ply" }] ∧
      env.fresh_uuid = "u1" ∧ (∃ img, env.decode = .ok img) ∧ ∃ g, env.predict = .ok g) ∧
    (generate_video { cuda_available := true, max_offset := .ok (1, 1)
                      frame_result := fun i => .ok { fid := i } }
      initState "nope").response = .httpError 404 "Session not found" :=
  have hmem : (dictFind "u1" (runTrace
      [.load { sys := { cuda_available := true, mps_available := false, mps_attr_error := false }
               download := .ok { sd := 0 } },
       .upload { decode := .ok { width := 4, height := 3 }
                 convert_focallength := fun _ _ _ => 100
                 fresh_uuid := "u1", predict := .ok { gid := 7 }, export_ply := .ok "a.ply" }]
      ).st.gaussian_storage).isSome = true := by decide
  ⟨hmem,
   accepted_session_from_prior_upload.1 _ "u1" hmem,
   (accepted_session_from_prior_upload.2.2.2.2
     { cuda_available := true, max_offset := .ok (1, 1), frame_result := fun i => .ok { fid := i } }
     initState "nope" rfl).1⟩

/-- C5: the video trajectory at step `i < 120` is
`(max_offset_x * sin(2*pi*t_i), max_offset_y * cos(2*pi*t_i), 0)` with the
normalized rotation parameter `t_i = (i/119 - 0.5) * 0.5`, which stays in
`[-1/4, 1/4]` and attains both endpoints — a ±90° arc of a full circle
(app.py lines 352-360). -/
theorem trajectory_pm90_arc (mx my : ℝ) (i : Nat) (h : i < 120) :
    (trajectory mx my)[i]? =
      some (mx * Real.sin (2 * Real.pi * (traj_t i : ℝ)),
            my * Real.cos (2 * Real.pi * (traj_t i : ℝ)), (0 : ℝ)) ∧
    traj_t i = ((i : ℚ) / 119 - 1 / 2) * (1 / 2) ∧
    -(1 / 4) ≤ traj_t i ∧ traj_t i ≤ 1 / 4 ∧
    traj_t 0 = -(1 / 4) ∧ traj_t 119 = 1 / 4 := by
  have hform : traj_t i = ((i : ℚ) / 119 - 1 / 2) * (1 / 2) := by
    unfold traj_t num_steps
    norm_num
  have h0 : (0 : ℚ) ≤ (i : ℚ) / 119 := by positivity
  have h1 : ((i : ℚ) / 119) ≤ 1 := by
    rw [div_le_one (by norm_num)]
    exact_mod_cast Nat.le_of_lt_succ h
  refine ⟨?_, hform, ?_, ?_, by norm_num [traj_t, num_steps], by norm_num [traj_t, num_steps]⟩
  · simp [trajectory, num_steps, List.getElem?_map, List.getElem?_range, h, trajPoint]
  · rw [hform]
    linarith
  · rw [hform]
    linarith

/-- Witness for C5 at step 7. -/
theorem trajectory_pm90_arc_witness :
    (trajectory 1 1)[7]? =
      some (1 * Real.sin (2 * Real.pi * (traj_t 7 : ℝ)),
            1 * Real.cos (2 * Real.pi * (traj_t 7 : ℝ)), (0 : ℝ)) ∧
    traj_t 7 = ((7 : ℚ) / 119 - 1 / 2) * (1 / 2) ∧
    -(1 / 4) ≤ traj_t 7 ∧ traj_t 7 ≤ 1 / 4 ∧
    traj_t 0 = -(1 / 4) ∧ traj_t 119 = 1 / 4 := by
  have := trajectory_pm90_arc 1 1 7 (by norm_num)
  exact_mod_cast this

end SharpApp
